import Mathlib

/-!
Verification development for the HolidaiButler content-repair pipeline.

This file gives a shallow embedding, in Lean 4, of the pipeline pieces that the
frozen claims talk about:

* `fase_r3_prompt_templates.py` — the word-count target table per quality tier;
* `fase_r4_regeneration.py` — verdict/status mapping (`STATUS_MAP`), the
  verification-response parser (`parse_verification`), the word-count retry loop
  inside `process_single_poi`, and the checkpointed batch runner
  (`run_generation_and_verification` together with `load_checkpoint` /
  `save_checkpoint`);
* `fase_r5_safeguards.py` — `validate_content`, the rule-based Safeguard Gate;
* `fase_r5_promote_staging.py` — `promote_to_production` and `rollback_poi`
  over a model of the database state (production table, staging table, audit
  trail).

External effects (the LLM service, `re.search`/`json.loads` on raw model
output, wall-clock timestamps) are modelled as explicit oracle inputs or
omitted fields; everything the control flow of the Python depends on is kept.
Rational numbers stand in for the Python floats: every numeric constant in the
source (0.20, 0.30, 1.0, 0.4, 0.3 + 0.1·k, 0.8·min, 1.2·max) is an exact
decimal whose float computations in CPython round to the same values the
rational computations give, so no behaviour is lost in translation.
-/

set_option autoImplicit false

/-! ## fase_r3_prompt_templates.py -/

namespace FaseR3

/-- One entry of `WORD_TARGETS`: the min/max word-count target of a tier. -/
structure WordTarget where
  min : Nat
  max : Nat
  deriving Repr, DecidableEq

/-- `WORD_TARGETS` — word count targets per data quality level. -/
def WORD_TARGETS : List (String × WordTarget) :=
  [("rich", ⟨110, 140⟩), ("moderate", ⟨85, 115⟩),
   ("minimal", ⟨55, 85⟩), ("none", ⟨30, 60⟩)]

/-- `WORD_TARGETS.get(quality, default)` — dict lookup with default. -/
def wordTargetsGet (quality : String) (default : WordTarget) : WordTarget :=
  ((WORD_TARGETS.find? (fun p => p.1 == quality)).map (fun p => p.2)).getD default

end FaseR3

/-! ## fase_r4_regeneration.py — configuration and STATUS_MAP -/

namespace FaseR4

/-- `BATCH_SIZE = 50` — checkpoint every N POIs. -/
def BATCH_SIZE : Nat := 50

/-- `WORD_COUNT_RETRIES = 1` — retries for word count out of range. -/
def WORD_COUNT_RETRIES : Nat := 1

/-- `PASS_THRESHOLD = 0.0`. -/
def PASS_THRESHOLD : ℚ := 0

/-- `REVIEW_THRESHOLD = 0.20` — hallucination_rate <= 0.20 is REVIEW. -/
def REVIEW_THRESHOLD : ℚ := 20 / 100

/-- `STATUS_MAP` — staging status per verification verdict. -/
def STATUS_MAP : List (String × String) :=
  [("PASS", "approved"),          -- Auto-approve clean content
   ("REVIEW", "pending"),         -- Needs review
   ("FAIL", "review_required"),   -- Requires attention
   ("ERROR", "review_required")]  -- Generation/verification failed

/-- Dict lookup in `STATUS_MAP` with a default. -/
def statusMapGet (verdict : String) (default : String) : String :=
  ((STATUS_MAP.find? (fun p => p.1 == verdict)).map (fun p => p.2)).getD default

/-- `STATUS_MAP.get(verdict, STATUS_MAP['ERROR'])` — the status a freshly
created staging row receives in `process_single_poi`. `STATUS_MAP['ERROR']`
is a direct (always-successful) key access. -/
def statusForVerdict (verdict : String) : String :=
  statusMapGet verdict (statusMapGet "ERROR" "")

/-! ### parse_verification

The raw LLM response is a string; what the Python does with it depends on two
library primitives whose outcome we carry as explicit fields of the input:

* `re.search(r'\{[\s\S]*\}', response)` followed by `json.loads` — the strict
  structured parse of the outermost brace block (`StrictParse`);
* the three field regexes of the `except json.JSONDecodeError` branch
  (`fieldVerdict`, `fieldRate`, `fieldUnsupported`, `fieldTotal`).

The word-membership checks (`response.startswith('ERROR:')`,
`v in response`) are computed directly on the carried raw string. -/

/-- One element of `unsupported_claims` (a dict with `claim`, `reason`,
`severity` keys in the source). -/
structure UnsupportedClaim where
  claim : String
  reason : String := ""
  severity : String
  deriving Repr, DecidableEq

/-- The dict a successful or partially-successful parse produces.  Fields are
`Option`s because the Python dicts carry only the keys each branch sets. -/
structure ParsedVerification where
  verdict : Option String := none
  hallucination_rate : Option ℚ := none
  unsupported : Option Nat := none
  total_claims : Option Nat := none
  unsupported_claims : Option (List UnsupportedClaim) := none
  parse_note : Option String := none
  error : Option String := none
  raw_response : Option String := none
  deriving Repr, DecidableEq

/-- Outcome of the strict structured parse of the response text. -/
inductive StrictParse where
  /-- `re.search(r'\{[\s\S]*\}', response)` found no brace block. -/
  | noBraces : StrictParse
  /-- A brace block was found but `json.loads` raised `JSONDecodeError`. -/
  | decodeError : StrictParse
  /-- `json.loads` succeeded with the given dict. -/
  | ok : ParsedVerification → StrictParse
  deriving Repr, DecidableEq

/-- A verification-service response together with the outcomes of the parsing
primitives applied to it. -/
structure VerifyResponse where
  raw : String
  strict : StrictParse
  /-- `re.search(r'"verdict"\s*:\s*"(PASS|REVIEW|FAIL)"', response)`. -/
  fieldVerdict : Option String := none
  /-- `re.search(r'"hallucination_rate"\s*:\s*([\d.]+)', response)`. -/
  fieldRate : Option ℚ := none
  /-- `re.search(r'"unsupported"\s*:\s*(\d+)', response)`. -/
  fieldUnsupported : Option Nat := none
  /-- `re.search(r'"total_claims"\s*:\s*(\d+)', response)`. -/
  fieldTotal : Option Nat := none
  deriving Repr, DecidableEq

/-- Is `pat` a leading segment of `s` (on character lists)? -/
def isPrefixList : List Char → List Char → Bool
  | [], _ => true
  | _ :: _, [] => false
  | p :: ps, c :: cs => p == c && isPrefixList ps cs

/-- Does `pat` occur contiguously inside `s` (on character lists)? -/
def containsSubList (pat : List Char) : List Char → Bool
  | [] => pat.isEmpty
  | c :: rest => isPrefixList pat (c :: rest) || containsSubList pat rest

/-- Substring test: `pat in s` (Python `in` on strings). -/
def strContains (s pat : String) : Bool :=
  containsSubList pat.data s.data

/-- `s.startswith(pat)` (Python `str.startswith`). -/
def strStartsWith (s pat : String) : Bool :=
  isPrefixList pat.data s.data

/-- The `# Ensure required fields` branch of `parse_verification`: derive the
verdict from `parsed.get('hallucination_rate', 0)` when the parsed JSON has no
`verdict` key. -/
def deriveVerdict (rate : ℚ) : String :=
  if rate = 0 then "PASS"
  else if rate ≤ REVIEW_THRESHOLD then "REVIEW"
  else "FAIL"

/-- Fill in a missing `verdict` key of a parsed dict. -/
def ensureVerdict (p : ParsedVerification) : ParsedVerification :=
  match p.verdict with
  | some _ => p
  | none => { p with verdict := some (deriveVerdict (p.hallucination_rate.getD 0)) }

/-- The `# Last resort` loop: look for the first of PASS/REVIEW/FAIL occurring
anywhere in the response text. -/
def wordSearch (raw : String) : Option ParsedVerification :=
  if strContains raw "PASS" then
    some { verdict := some "PASS", hallucination_rate := some 0,
           unsupported_claims := some [],
           parse_note := some "Fallback: found PASS in response text" }
  else if strContains raw "REVIEW" then
    some { verdict := some "REVIEW", hallucination_rate := some (15 / 100),
           unsupported_claims := some [],
           parse_note := some "Fallback: found REVIEW in response text" }
  else if strContains raw "FAIL" then
    some { verdict := some "FAIL", hallucination_rate := some (30 / 100),
           unsupported_claims := some [],
           parse_note := some "Fallback: found FAIL in response text" }
  else none

/-- The total-failure result of `parse_verification` (`response[:500]`
written as a character-list take). -/
def parseFailureResult (raw : String) : ParsedVerification :=
  { verdict := some "ERROR", error := some "Could not parse verification response",
    raw_response := some ⟨raw.data.take 500⟩, hallucination_rate := some 1 }

/-- `parse_verification(response)`.  Mirrors the control flow of the source:
the `ERROR:`-prefix short-circuit, then the strict parse (returning the parsed
dict with the verdict ensured), then — only on `JSONDecodeError` — the regex
field extraction, then the word search, then the fail-safe ERROR result.
When `re.search` finds no brace block the `try` body falls through without
raising, so the regex extraction is skipped and control reaches the word
search directly, exactly as in the source. -/
def parse_verification (resp : VerifyResponse) : ParsedVerification :=
  if strStartsWith resp.raw "ERROR:" then
    { verdict := some "ERROR", error := some resp.raw, hallucination_rate := some 1 }
  else
    match resp.strict with
    | .ok parsed => ensureVerdict parsed
    | .noBraces =>
        match wordSearch resp.raw with
        | some p => p
        | none => parseFailureResult resp.raw
    | .decodeError =>
        match resp.fieldVerdict with
        | some v =>
            { verdict := some v,
              hallucination_rate := some (resp.fieldRate.getD (50 / 100)),
              unsupported := some (resp.fieldUnsupported.getD 0),
              total_claims := some (resp.fieldTotal.getD 0),
              unsupported_claims := some [],
              parse_note := some "Extracted from truncated JSON" }
        | none =>
            match wordSearch resp.raw with
            | some p => p
            | none => parseFailureResult resp.raw

end FaseR4

/-! ## fase_r4_regeneration.py — generation word-count retry loop -/

namespace FaseR4

/-- Helper for `countWords`: count the maximal non-whitespace runs of a
character list (`inWord` says whether the previous character was part of a
word). -/
def countWordsList : List Char → Bool → Nat
  | [], _ => 0
  | c :: cs, inWord =>
      if c.isWhitespace then countWordsList cs false
      else (if inWord then 0 else 1) + countWordsList cs true

/-- `count_words(text)` = `len(text.split())`: the number of maximal
whitespace-separated runs (empty pieces never counted). -/
def countWords (s : String) : Nat :=
  countWordsList s.data false

/-- The sampling temperature `process_single_poi` passes to `call_mistral` for
generation attempt `k`: the original call (attempt 0) uses `temperature=0.4`;
word-count retry `k ≥ 1` uses `temperature=0.3 + retry_count * 0.1`. -/
def genTemperature : Nat → ℚ
  | 0 => 4 / 10
  | k + 1 => 3 / 10 + (k + 1 : ℚ) * (1 / 10)

/-- State of the word-count retry loop: the current generated text, the word
count last computed from it (on an `ERROR:` break the stale count is kept,
as in the source), and `retry_count`. -/
structure GenState where
  text : String
  word_count : Nat
  word_retries : Nat
  deriving Repr, DecidableEq

/-- The `while (word_count < targets['min'] or word_count > targets['max'])
and retry_count < WORD_COUNT_RETRIES` loop.  `gen k` is the text the external
service returns for attempt `k` (at temperature `genTemperature k`).  The fuel
argument equals the remaining retry budget, so it never runs out before the
`retry_count < WORD_COUNT_RETRIES` test fails. -/
def retryLoop (gen : Nat → String) (tmin tmax : Nat) : Nat → GenState → GenState
  | 0, st => st
  | fuel + 1, st =>
      if (st.word_count < tmin || st.word_count > tmax)
          && st.word_retries < WORD_COUNT_RETRIES then
        let rc := st.word_retries + 1
        let t := gen rc
        if strStartsWith t "ERROR:" then { st with text := t, word_retries := rc }
        else retryLoop gen tmin tmax fuel { text := t, word_count := countWords t, word_retries := rc }
      else st

/-- The generation section of `process_single_poi`: the original call followed
by the word-count retry loop. -/
def generateWithRetries (gen : Nat → String) (tmin tmax : Nat) : GenState :=
  let text0 := gen 0
  retryLoop gen tmin tmax WORD_COUNT_RETRIES ⟨text0, countWords text0, 0⟩

/-- `result['word_count_ok'] = targets['min'] <= word_count <= targets['max']`. -/
def wordCountOk (tmin tmax wc : Nat) : Bool :=
  tmin ≤ wc && wc ≤ tmax

end FaseR4

/-! ## fase_r4_regeneration.py — checkpointed batch runner

`run_generation_and_verification` together with `load_checkpoint` /
`save_checkpoint`.  One item's whole generation+verification is the oracle
`proc : Nat → α` (poi_id to its result record); items are identified by their
`poi_id`.  The checkpoint file carries exactly the keys `save_checkpoint` is
given — `completed_ids`, `phase` and summary statistics; the statistics are
derived data that never feed back into control flow and are not modelled.
`completed_ids` is a Python `set` serialised with `list(...)`; only
membership in it is ever consulted, so a list models it faithfully. -/

namespace FaseR4

/-- The persisted checkpoint state (`fase_r4_checkpoint.json`). -/
structure Checkpoint where
  completed_ids : List Nat
  phase : String
  deriving Repr, DecidableEq

/-- In-memory state of the processing loop over one run. -/
structure RunState (α : Type) where
  completed : List Nat
  results : List α
  batch : List α
  /-- The checkpoint file on disk (`none` = not yet written this run). -/
  checkpointFile : Option Checkpoint
  deriving Repr, DecidableEq

/-- The body of the `for i, fs in enumerate(remaining)` loop for one POI:
process it, append the result, mark it completed, and — when the staging
batch reaches `BATCH_SIZE` — flush the batch and write the checkpoint
(`completed_ids` and phase only; the accumulated results are *not* part of
the `save_checkpoint` payload). -/
def stepPoi {α : Type} (proc : Nat → α) (st : RunState α) (pid : Nat) : RunState α :=
  let result := proc pid
  let results := st.results ++ [result]
  let completed := st.completed ++ [pid]
  let batch := st.batch ++ [result]
  if BATCH_SIZE ≤ batch.length then
    { completed := completed, results := results, batch := [],
      checkpointFile := some ⟨completed, "generation"⟩ }
  else
    { completed := completed, results := results, batch := batch,
      checkpointFile := st.checkpointFile }

/-- `remaining = [fs for fs in fact_sheets if fs['poi_id'] not in completed_ids]`
followed by the offset/limit slicing. -/
def remainingItems (factSheets : List Nat) (completedIds : List Nat)
    (limit : Option Nat) (offset : Nat) : List Nat :=
  let remaining := factSheets.filter (fun pid => !(completedIds.contains pid))
  let remaining := remaining.drop offset
  match limit with
  | some n => remaining.take n
  | none => remaining

/-- A full, uninterrupted `run_generation_and_verification` call starting from
checkpoint state `(completedIds, results0)`: process every remaining item,
then write the final results file (`json.dump(results, f)` — the file is
recreated with exactly the accumulated `results`).  Returns the contents of
the results file. -/
def runGenerationAndVerification {α : Type} (proc : Nat → α) (factSheets : List Nat)
    (completedIds : List Nat) (results0 : List α)
    (limit : Option Nat) (offset : Nat) : List α :=
  let remaining := remainingItems factSheets completedIds limit offset
  (remaining.foldl (stepPoi proc) ⟨completedIds, results0, [], none⟩).results

/-- The loop state after processing the first `k` remaining items (used to
read off the checkpoint file a crash at that point leaves behind). -/
def runStateAfter {α : Type} (proc : Nat → α) (factSheets : List Nat)
    (completedIds : List Nat) (results0 : List α) (k : Nat) : RunState α :=
  ((remainingItems factSheets completedIds none 0).take k).foldl
    (stepPoi proc) ⟨completedIds, results0, [], none⟩

/-- `load_checkpoint()` + the reads `run_generation_and_verification` does on
it: `completed_ids = set(checkpoint.get('completed_ids', []))` and
`results = checkpoint.get('results', [])`.  A checkpoint written by
`save_checkpoint` has no `results` key, so the default `[]` is what the
resumed run starts from. -/
def loadResumeState {α : Type} (cp : Checkpoint) : List Nat × List α :=
  (cp.completed_ids, [])

/-- The final results file produced by: running from a fresh state, crashing
right after the checkpoint written at item `k`, then rerunning with
`--resume`. -/
def crashResumeResults {α : Type} (proc : Nat → α) (factSheets : List Nat) (k : Nat) :
    Option (List α) :=
  match (runStateAfter proc factSheets [] ([] : List α) k).checkpointFile with
  | none => none
  | some cp =>
      let (completed, results0) := loadResumeState (α := α) cp
      some (runGenerationAndVerification proc factSheets completed results0 none 0)

end FaseR4

/-! ## fase_r5_safeguards.py — the Safeguard Gate -/

namespace FaseR5

open FaseR4 (UnsupportedClaim strContains)

/-- `WORD_TARGETS` — the safeguards module has its own copy of the R3 word
count target table (same values). -/
def WORD_TARGETS : List (String × FaseR3.WordTarget) :=
  [("rich", ⟨110, 140⟩), ("moderate", ⟨85, 115⟩),
   ("minimal", ⟨55, 85⟩), ("none", ⟨30, 60⟩)]

/-- `WORD_TARGETS.get(quality, WORD_TARGETS['none'])`. -/
def wordTargetsGet (quality : String) : FaseR3.WordTarget :=
  ((WORD_TARGETS.find? (fun p => p.1 == quality)).map (fun p => p.2)).getD ⟨30, 60⟩

/-- `KNOWN_DESTINATIONS = {1: 'Calpe', 2: 'Texel'}`. -/
def KNOWN_DESTINATIONS : List (Int × String) := [(1, "Calpe"), (2, "Texel")]

/-- `MAX_HALLUCINATION_RATE = 0.20` — block if above this. -/
def MAX_HALLUCINATION_RATE : ℚ := 20 / 100

/-- `MAX_HALLUCINATION_RATE_NONE = 0.30` — slightly more lenient for `'none'`
quality (per the source comment). -/
def MAX_HALLUCINATION_RATE_NONE : ℚ := 30 / 100

/-- `EMBELLISHMENT_BLOCKLIST` (from R3 rule 9). -/
def EMBELLISHMENT_BLOCKLIST : List String :=
  ["unique", "modern", "cosy", "cozy", "convenient", "charming",
   "inviting", "vibrant", "delightful", "exceptional", "exquisite",
   "stunning", "breathtaking", "magnificent", "spectacular",
   "world-class", "must-visit", "hidden gem", "best-kept secret",
   "unforgettable", "unparalleled", "state-of-the-art",
   "award-winning", "renowned", "prestigious", "iconic"]

/-- The verification metadata `validate_content` reads out of
`llm_context_json`, with each field already carrying the `.get(...)` default
the source applies (`data_quality` → `'none'`, `hallucination_rate` → `1.0`,
`verification_verdict` → `'FAIL'`, `unsupported_claims` → `[]`,
`word_count` → `0`).  A context that fails to parse as JSON becomes `{}` in
the source, i.e. exactly these defaults. -/
structure LlmContext where
  data_quality : String := "none"
  hallucination_rate : ℚ := 1
  verification_verdict : String := "FAIL"
  unsupported_claims : List UnsupportedClaim := []
  word_count : Nat := 0
  deriving Repr, DecidableEq

/-- Return value of `validate_content`. -/
structure ValidationResult where
  approved : Bool
  reasons : List String
  warnings : List String
  deriving Repr, DecidableEq

/-- Rule 1 — HIGH severity claim blocker. -/
def highSeverityReasons (unsupported_claims : List UnsupportedClaim) : List String :=
  let high := unsupported_claims.filter (fun c => c.severity == "HIGH")
  if high.isEmpty then []
  else ["BLOCKED: " ++ toString high.length ++ " HIGH severity unsupported claim(s)"]

/-- Rule 2 — hallucination rate threshold (`rate` already normalised). -/
def rateReasons (data_quality : String) (rate : ℚ) : List String :=
  let threshold :=
    if data_quality == "none" then MAX_HALLUCINATION_RATE_NONE else MAX_HALLUCINATION_RATE
  if threshold < rate then
    ["BLOCKED: Hallucination rate " ++ toString (rate * 100) ++
     "% exceeds " ++ toString (threshold * 100) ++ "% threshold"]
  else []

/-- Rule 3, blocking half — the `else` branch of `if new_content:` appends
the empty-content reason. -/
def emptyContentReasons (new_content : String) : List String :=
  if new_content ≠ "" then [] else ["BLOCKED: Empty content"]

/-- Rule 3, warning half — word count against the tier target with 20 %
tolerance.  `int(min*0.8)` and `int(max*1.2)` truncate; on every tier of
`WORD_TARGETS` the float products are whole numbers (the doubles round to
exactly 88/168, 68/138, 44/102, 24/72), so Nat arithmetic `min*8/10` and
`max*12/10` computes the identical bounds. -/
def wordCountWarnings (data_quality : String) (new_content : String) : List String :=
  if new_content ≠ "" then
    let actual_words := FaseR4.countWords new_content
    let targets := wordTargetsGet data_quality
    let min_words := targets.min * 8 / 10
    let max_words := targets.max * 12 / 10
    if actual_words < min_words then
      ["Word count " ++ toString actual_words ++ " below minimum " ++
       toString min_words ++ " for " ++ data_quality ++ " quality"]
    else if max_words < actual_words then
      ["Word count " ++ toString actual_words ++ " above maximum " ++
       toString max_words ++ " for " ++ data_quality ++ " quality"]
    else []
  else []

/-- Rule 4 — embellishment keyword check (warnings only). -/
def embellishmentWarnings (new_content : String) : List String :=
  if new_content ≠ "" then
    let content_lower := new_content.toLower
    let found := EMBELLISHMENT_BLOCKLIST.filter (fun w => strContains content_lower w)
    if found.isEmpty then []
    else ["Embellishment words found: " ++ String.intercalate ", " (found.take 5)]
  else []

/-- Rule 5 — new destination enforcer.  `if destination_id and destination_id
not in KNOWN_DESTINATIONS`: a `None` or `0` identifier is falsy and skips the
membership check entirely. -/
def newDestinationReasons : Option Int → List String
  | none => []
  | some d =>
      if d != 0 && !(KNOWN_DESTINATIONS.any (fun p => p.1 == d)) then
        ["BLOCKED: Unknown destination " ++ toString d ++
         " — requires mandatory manual review"]
      else []

/-- Rule 6 — brondata coverage for `'none'` quality.  Appends its reason only
when no earlier reason already mentions the hallucination rate. -/
def noneCoverageReasons (data_quality : String) (rate : ℚ)
    (reasonsSoFar : List String) : List String :=
  if data_quality == "none" && decide (MAX_HALLUCINATION_RATE < rate) then
    if reasonsSoFar.any (fun r => strContains r "Hallucination rate") then []
    else ["BLOCKED: No source data and hallucination rate " ++
          toString (rate * 100) ++ "%"]
  else []

/-- `validate_content(poi_id, new_content, llm_context_json, destination_id)`.
The `poi_id` argument is never read by the source body and is kept only for
signature fidelity.  Reasons and warnings are accumulated in the source's
append order. -/
def validate_content (_poi_id : Nat) (new_content : String)
    (ctx : LlmContext) (destination_id : Option Int) : ValidationResult :=
  -- If hallucination_rate is a percentage (>1), convert to fraction
  let hallucination_rate :=
    if 1 < ctx.hallucination_rate then ctx.hallucination_rate / 100 else ctx.hallucination_rate
  let r1 := highSeverityReasons ctx.unsupported_claims
  let r2 := rateReasons ctx.data_quality hallucination_rate
  let r3 := emptyContentReasons new_content
  let w3 := wordCountWarnings ctx.data_quality new_content
  let w4 := embellishmentWarnings new_content
  let r5 := newDestinationReasons destination_id
  let before6 := r1 ++ r2 ++ r3 ++ r5
  let r6 := noneCoverageReasons ctx.data_quality hallucination_rate before6
  let reasons := before6 ++ r6
  { approved := reasons.isEmpty, reasons := reasons, warnings := w3 ++ w4 }

end FaseR5

/-! ## fase_r5_promote_staging.py — promotion and rollback

The durable store is modelled explicitly: the production `POI` table as an
association list `poi_id → enriched_detail_description`, the
`poi_content_staging` table as a list of rows, and the append-only
`poi_content_history` audit trail as a list of entries in insertion order
(`created_at` is monotone in insertion order, so `ORDER BY created_at DESC
LIMIT 1` is "last matching entry").  Timestamp columns (`applied_at`,
`reviewed_at`, `created_at`) are wall-clock effects and are not carried. -/

namespace PromoteStaging

/-- `R4_BATCH_DATE = '2026-02-13'` — only promote R4 entries. -/
def R4_BATCH_DATE : String := "2026-02-13"

/-- A `poi_content_staging` row (the columns the promotion script touches).
`llm_context_json` is carried as the value the audit insert records for it:
`none` models an empty or unparseable context (Python `None` after
`json.dumps(...) if verification_json else None`), `some s` the serialised
dict. -/
structure StagingRow where
  id : Nat
  poi_id : Nat
  poi_name : String
  detail_description_en : String
  llm_context_json : Option String := none
  destination_id : Option Int := none
  old_content_snapshot : String := ""
  comparison_recommendation : String := ""
  comparison_rationale : String := ""
  status : String
  created_date : String
  review_notes : String := ""
  deriving Repr, DecidableEq

/-- A `poi_content_history` (audit trail) entry. -/
structure AuditEntry where
  poi_id : Nat
  field_name : String
  old_value : String
  new_value : String
  change_source : String
  change_reason : String
  verification_result : Option String := none
  changed_by : String
  deriving Repr, DecidableEq

/-- The database state the two operations read and write. -/
structure Db where
  production : List (Nat × String)
  staging : List StagingRow
  audit : List AuditEntry
  deriving Repr, DecidableEq

/-- `SELECT enriched_detail_description FROM POI WHERE id = %s` (id is the
primary key: first match). -/
def prodLookup : List (Nat × String) → Nat → Option String
  | [], _ => none
  | kv :: rest, poi_id => if kv.1 = poi_id then some kv.2 else prodLookup rest poi_id

/-- `UPDATE POI SET enriched_detail_description = %s WHERE id = %s` — updates
matching rows in place, a no-op when the id is absent. -/
def prodUpdate (production : List (Nat × String)) (poi_id : Nat) (v : String) :
    List (Nat × String) :=
  production.map (fun kv => if kv.1 = poi_id then (kv.1, v) else kv)

/-- `UPDATE poi_content_staging SET status = 'applied' WHERE id = %s`. -/
def setApplied (staging : List StagingRow) (rowId : Nat) : List StagingRow :=
  staging.map (fun r => if r.id = rowId then { r with status := "applied" } else r)

/-- The audit-trail entry `promote_to_production` inserts before marking a row
applied (`change_source = 'fase_r4_staging'`; the change reason falls back to
`'R4 regeneration approved'` when the rationale is empty). -/
def auditEntryFor (row : StagingRow) (old_content : String) : AuditEntry :=
  { poi_id := row.poi_id,
    field_name := "enriched_detail_description",
    old_value := old_content,
    new_value := row.detail_description_en,
    change_source := "fase_r4_staging",
    change_reason :=
      if row.comparison_rationale = "" then "R4 regeneration approved"
      else row.comparison_rationale,
    verification_result := row.llm_context_json,
    changed_by := "system_r5" }

/-- The loop body of `promote_to_production` for one selected staging row:
look up the current production value (a missing POI is logged and skipped,
leaving the row approved); if it equals the candidate, only flip the row to
`applied`; otherwise write the candidate to production, insert the audit
entry, and flip the row to `applied`. -/
def promoteRow (st : Db) (row : StagingRow) : Db :=
  match prodLookup st.production row.poi_id with
  | none => st
  | some old_content =>
      if old_content = row.detail_description_en then
        { st with staging := setApplied st.staging row.id }
      else
        { production := prodUpdate st.production row.poi_id row.detail_description_en,
          staging := setApplied st.staging row.id,
          audit := st.audit ++ [auditEntryFor row old_content] }

/-- The `WHERE DATE(s.created_at) = %s AND s.status = 'approved'` selection
predicate. -/
def approvedBatchRow (r : StagingRow) : Bool :=
  r.created_date == R4_BATCH_DATE && r.status == "approved"

/-- `promote_to_production(conn, dry_run)`: select the approved rows of the
R4 batch (a snapshot taken before any writes), return unchanged when there
are none or in dry-run mode, otherwise process each selected row in order. -/
def promote_to_production (db : Db) (dry_run : Bool) : Db :=
  let rows := db.staging.filter approvedBatchRow
  if rows.isEmpty then db
  else if dry_run then db
  else rows.foldl promoteRow db

/-- The rollback audit entry (`change_source = 'rollback'`). -/
def rollbackEntryFor (poi_id : Nat) (currentVal old_content : String) : AuditEntry :=
  { poi_id := poi_id,
    field_name := "enriched_detail_description",
    old_value := currentVal,
    new_value := old_content,
    change_source := "rollback",
    change_reason := "Manual rollback via fase_r5_promote_staging.py",
    changed_by := "system_r5" }

/-- The content `rollback_poi` decides to restore: the `old_value` of the most
recent audit entry for the item's content field, or — when no audit entry
exists — the most recent R4 staging row's `old_content_snapshot` provided it
is non-empty (`if not staging or not staging['old_content_snapshot']`). -/
def rollbackSource (db : Db) (poi_id : Nat) : Option String :=
  match db.audit.reverse.find?
      (fun e => e.poi_id == poi_id && e.field_name == "enriched_detail_description") with
  | some h => some h.old_value
  | none =>
      match db.staging.reverse.find?
          (fun r => r.poi_id == poi_id && r.created_date == R4_BATCH_DATE) with
      | none => none
      | some st => if st.old_content_snapshot = "" then none else some st.old_content_snapshot

/-- `rollback_poi(conn, poi_id, dry_run)`.  Returns the new database state and
the boolean result.  After resolving the restore value (refusing when there is
none or it is empty — `if not old_content`), the execute path writes it back
to production, inserts the rollback audit entry with the pre-rollback value as
`old_value`, and flips any `applied` R4 staging row for the item to
`rejected`. -/
def rollback_poi (db : Db) (poi_id : Nat) (dry_run : Bool) : Db × Bool :=
  match rollbackSource db poi_id with
  | none => (db, false)
  | some old_content =>
      if old_content = "" then (db, false)
      else if dry_run then (db, true)
      else
        let currentVal := (prodLookup db.production poi_id).getD ""
        ({ production := prodUpdate db.production poi_id old_content,
           staging := db.staging.map (fun r =>
             if r.poi_id == poi_id && r.created_date == R4_BATCH_DATE
                 && r.status == "applied" then
               { r with status := "rejected", review_notes := "Rolled back via R5" }
             else r),
           audit := db.audit ++ [rollbackEntryFor poi_id currentVal old_content] },
         true)

end PromoteStaging

/-! ## Concrete instances used by the claim theorems, counterexamples and
witnesses -/

/-- The self-test "Test 2" context of `fase_r5_safeguards.py`: minimal tier,
40 % hallucination rate, one HIGH severity unsupported claim. -/
def test2Ctx : FaseR5.LlmContext :=
  { data_quality := "minimal", hallucination_rate := 40 / 100,
    verification_verdict := "FAIL",
    unsupported_claims := [⟨"Michelin stars", "No source", "HIGH"⟩],
    word_count := 7 }

/-- The self-test "Test 2" candidate text. -/
def test2Content : String := "Award-winning restaurant with Michelin stars."

/-- A parsed verification JSON that has a 10 % hallucination rate, one HIGH
severity unsupported claim, and no `verdict` key. -/
def c3Parsed : FaseR4.ParsedVerification :=
  { hallucination_rate := some (10 / 100), unsupported := some 1,
    total_claims := some 10,
    unsupported_claims := some [⟨"Michelin star awarded", "Not in source data", "HIGH"⟩] }

/-- A verification response whose structured parse succeeds with `c3Parsed`. -/
def c3Response : FaseR4.VerifyResponse :=
  { raw := "valid JSON body with one HIGH severity unsupported claim and no verdict key",
    strict := .ok c3Parsed }

/-- A verification response that defeats every parsing stage: no brace block,
and none of PASS/REVIEW/FAIL occurs in the text. -/
def c5Response : FaseR4.VerifyResponse :=
  { raw := "the service returned no structured output at all", strict := .noBraces }

/-- A `'none'`-tier verification context with a 25 % hallucination rate —
inside the `'none'`-tier allowance of 30 % but above the general 20 %. -/
def c6Ctx : FaseR5.LlmContext :=
  { data_quality := "none", hallucination_rate := 25 / 100,
    verification_verdict := "FAIL", unsupported_claims := [], word_count := 11 }

/-- Candidate text for the `'none'`-tier row (non-empty, so rule 3 does not
block). -/
def c6Content : String :=
  "A venue in Calpe. Visitors can contact the venue directly for details."

/-- A clean rich-tier context (no HIGH claims, 10 % rate). -/
def c10Ctx : FaseR5.LlmContext :=
  { data_quality := "rich", hallucination_rate := 10 / 100,
    verification_verdict := "REVIEW", unsupported_claims := [], word_count := 15 }

/-- Candidate text for the clean rich-tier row. -/
def c10Content : String :=
  "This restaurant in Den Burg on Texel serves fresh local fish from Wednesday to Sunday."

/-- Item processing oracle for the batch-runner scenario: the result record of
item `pid` is represented by `pid` itself. -/
def c4Proc : Nat → Nat := fun pid => pid

/-- An approved R4 staging row whose candidate differs from production. -/
def w7Row : PromoteStaging.StagingRow :=
  { id := 11, poi_id := 1, poi_name := "Strandpaviljoen Paal 17",
    detail_description_en := "New candidate text",
    llm_context_json := some "verification metadata",
    old_content_snapshot := "Old production text",
    comparison_rationale := "Verification PASS",
    status := "approved", created_date := PromoteStaging.R4_BATCH_DATE }

/-- A database with one production row and the single approved staging row
`w7Row`. -/
def w7Db : PromoteStaging.Db :=
  ⟨[(1, "Old production text")], [w7Row], []⟩

/-- An approved R4 staging row whose candidate equals the current production
text (the Scenario D case). -/
def w7RowSame : PromoteStaging.StagingRow :=
  { id := 12, poi_id := 2, poi_name := "Dune viewpoint",
    detail_description_en := "Same text",
    status := "approved", created_date := PromoteStaging.R4_BATCH_DATE }

/-- An approved R4 staging row for an item whose production content is the
empty string before promotion. -/
def c8Row : PromoteStaging.StagingRow :=
  { id := 21, poi_id := 3, poi_name := "Harbour kiosk",
    detail_description_en := "Regenerated text",
    status := "approved", created_date := PromoteStaging.R4_BATCH_DATE }

/-- A database whose production content for item 3 is empty. -/
def c8Db : PromoteStaging.Db :=
  ⟨[(3, "")], [c8Row], []⟩

/-- Generation oracle that always returns a 2-word text (far below every
tier minimum and never an `ERROR:` string). -/
def c9Gen : Nat → String := fun _ => "too short"

/-! ## Claim theorems -/

set_option maxRecDepth 4000

open FaseR4 PromoteStaging

/-- Claim C1, counterexample: the claim says a staging row whose verdict is
PASS is created with status `pending` and that `approved` is never set at row
creation; but `STATUS_MAP` maps the PASS verdict to `approved` (deliberate
auto-approval at creation), so at the concrete input PASS the claim is
false. -/
theorem claim_C1_counterexample :
    statusForVerdict "PASS" = "approved" ∧ statusForVerdict "PASS" ≠ "pending" := by
  decide

/-- Claim C1, amended: the initial workflow status is determined solely by the
verdict via `STATUS_MAP`, as `approved` for PASS (auto-approved at creation),
`pending` for REVIEW, `review_required` for FAIL and ERROR, and
`review_required` for any unrecognised verdict (the `.get` default is
`STATUS_MAP['ERROR']`). -/
theorem claim_C1_theorem :
    statusForVerdict "PASS" = "approved" ∧
    statusForVerdict "REVIEW" = "pending" ∧
    statusForVerdict "FAIL" = "review_required" ∧
    statusForVerdict "ERROR" = "review_required" ∧
    statusForVerdict "UNRECOGNISED" = "review_required" := by
  decide

/-- Claim C3 (code bug): at the concrete parsed verification `c3Parsed` —
hallucination rate 10 %, one HIGH severity unsupported claim, no verdict key —
`parse_verification` derives the verdict REVIEW from the rate alone.  The
claim (and the documented verdict rule, which makes any HIGH severity
unsupported claim a FAIL regardless of rate) requires FAIL here, so the
code's verdict derivation omits the HIGH-severity override. -/
theorem claim_C3_theorem :
    (parse_verification c3Response).verdict = some "REVIEW" ∧
    (parse_verification c3Response).verdict ≠ some "FAIL" ∧
    ((c3Parsed.unsupported_claims.getD []).any (fun c => c.severity == "HIGH")) = true ∧
    deriveVerdict (c3Parsed.hallucination_rate.getD 0) = "REVIEW" := by
  with_unfolding_all decide

/-- Claim C4 (code bug): over the 51-item set `0..50` with `BATCH_SIZE = 50`,
an uninterrupted run's final results file holds all 51 results, but crashing
right after the checkpoint written at item 50 and resuming yields a final
results file holding only item 50's result — the results of the 50 items
completed before the crash are absent, because `save_checkpoint` persists
`completed_ids` but not `results`, while the resumed run reads
`checkpoint.get('results', [])`.  (No item is processed twice: the resumed
run processes only item 50.) -/
theorem claim_C4_theorem :
    runGenerationAndVerification c4Proc (List.range 51) [] [] none 0 = List.range 51 ∧
    (runStateAfter c4Proc (List.range 51) ([] : List Nat) ([] : List Nat) 50).checkpointFile =
      some ⟨List.range 50, "generation"⟩ ∧
    crashResumeResults c4Proc (List.range 51) 50 = some [50] ∧
    (0 : Nat) ∈ runGenerationAndVerification c4Proc (List.range 51) [] [] none 0 ∧
    (0 : Nat) ∉ (crashResumeResults c4Proc (List.range 51) 50).getD [] := by
  decide

/-- Claim C6 (code bug): a `'none'`-tier row with hallucination rate 25 % —
within the `'none'`-tier allowance `MAX_HALLUCINATION_RATE_NONE = 0.30`, so
rule 2 produces no blocking reason — is nevertheless blocked by
`validate_content`, because rule 6 blocks any `'none'`-tier row above the
general 20 % threshold.  The claimed higher allowance for the `'none'` tier
is therefore never effective. -/
theorem claim_C6_theorem :
    FaseR5.rateReasons c6Ctx.data_quality c6Ctx.hallucination_rate = [] ∧
    FaseR5.MAX_HALLUCINATION_RATE < c6Ctx.hallucination_rate ∧
    c6Ctx.hallucination_rate ≤ FaseR5.MAX_HALLUCINATION_RATE_NONE ∧
    (FaseR5.validate_content 6 c6Content c6Ctx (some 1)).approved = false := by
  with_unfolding_all decide

/-- Claim C9, counterexample: the first word-count retry runs at sampling
temperature `0.3 + 1*0.1 = 0.4`, exactly the temperature of the original
generation call — not an increased one, refuting the claim at retry 1 (and
`WORD_COUNT_RETRIES = 1`, so this is the only retry that ever happens). -/
theorem claim_C9_counterexample :
    genTemperature 1 = genTemperature 0 ∧
    ¬ genTemperature 0 < genTemperature 1 ∧
    WORD_COUNT_RETRIES = 1 := by
  refine ⟨?_, ?_, rfl⟩ <;> with_unfolding_all decide

/-- Claim C2: whenever the verification metadata contains an unsupported claim
of severity HIGH, `validate_content` returns `approved = false`, whatever the
hallucination rate, tier, word count, content or destination of the row —
rule 1 contributes a blocking reason and approval requires an empty reason
list. -/
theorem claim_C2_theorem (pid : Nat) (content : String) (ctx : FaseR5.LlmContext)
    (dest : Option Int) (h : ∃ c ∈ ctx.unsupported_claims, c.severity = "HIGH") :
    (FaseR5.validate_content pid content ctx dest).approved = false := by
  obtain ⟨c, hc, hsev⟩ := h
  have hmem : c ∈ ctx.unsupported_claims.filter (fun c => c.severity == "HIGH") :=
    List.mem_filter.mpr ⟨hc, by simp [hsev]⟩
  cases hfil : ctx.unsupported_claims.filter (fun c => c.severity == "HIGH") with
  | nil => rw [hfil] at hmem; exact absurd hmem (List.not_mem_nil c)
  | cons a t =>
      simp [FaseR5.validate_content, FaseR5.highSeverityReasons, hfil]

/-- Claim C2, witness: the module self-test's "Test 2" row (minimal tier,
40 % rate, one HIGH severity claim) is not approved. -/
theorem claim_C2_witness :
    (∃ c ∈ test2Ctx.unsupported_claims, c.severity = "HIGH") ∧
    (FaseR5.validate_content 2 test2Content test2Ctx (some 1)).approved = false :=
  ⟨⟨⟨"Michelin stars", "No source", "HIGH"⟩, by decide, rfl⟩,
   claim_C2_theorem 2 test2Content test2Ctx (some 1)
     ⟨⟨"Michelin stars", "No source", "HIGH"⟩, by decide, rfl⟩⟩

/-- Claim C5: `parse_verification` first honours a successful strict
structured parse; on `JSONDecodeError` it falls back to pattern extraction of
the verdict/rate fields; and when every extraction attempt fails the result is
verdict ERROR with hallucination rate 1.0, which `STATUS_MAP` routes to
status `review_required` — an unparseable response never yields a trusted
verdict. -/
theorem claim_C5_theorem :
    (∀ (resp : VerifyResponse) (p : ParsedVerification),
       strStartsWith resp.raw "ERROR:" = false → resp.strict = .ok p →
       parse_verification resp = ensureVerdict p) ∧
    (∀ (resp : VerifyResponse) (v : String),
       strStartsWith resp.raw "ERROR:" = false → resp.strict = .decodeError →
       resp.fieldVerdict = some v →
       parse_verification resp =
         { verdict := some v,
           hallucination_rate := some (resp.fieldRate.getD (50 / 100)),
           unsupported := some (resp.fieldUnsupported.getD 0),
           total_claims := some (resp.fieldTotal.getD 0),
           unsupported_claims := some [],
           parse_note := some "Extracted from truncated JSON" }) ∧
    (∀ resp : VerifyResponse,
       strStartsWith resp.raw "ERROR:" = false →
       (∀ p, resp.strict ≠ .ok p) →
       resp.fieldVerdict = none →
       wordSearch resp.raw = none →
       parse_verification resp = parseFailureResult resp.raw ∧
       (parse_verification resp).verdict = some "ERROR" ∧
       (parse_verification resp).hallucination_rate = some 1) ∧
    statusForVerdict "ERROR" = "review_required" := by
  refine ⟨?_, ?_, ?_, by decide⟩
  · intro resp p h1 h2
    simp [parse_verification, h1, h2]
  · intro resp v h1 h2 h3
    simp [parse_verification, h1, h2, h3]
  · intro resp h1 h2 h3 h4
    have hp : parse_verification resp = parseFailureResult resp.raw := by
      rcases hs : resp.strict with _ | _ | p
      · simp [parse_verification, h1, hs, h4]
      · simp [parse_verification, h1, hs, h3, h4]
      · exact absurd hs (h2 p)
    exact ⟨hp, by rw [hp]; rfl, by rw [hp]; rfl⟩

/-- Claim C5, witness: a response with no brace block and no extractable
verdict word parses to the fail-safe ERROR result, and ERROR maps to
`review_required`. -/
theorem claim_C5_witness :
    parse_verification c5Response = parseFailureResult c5Response.raw ∧
    (parse_verification c5Response).verdict = some "ERROR" ∧
    (parse_verification c5Response).hallucination_rate = some 1 ∧
    statusForVerdict "ERROR" = "review_required" := by
  have h := claim_C5_theorem.2.2.1 c5Response (by decide)
    (fun p hp => by simp [c5Response] at hp) rfl (by decide)
  exact ⟨h.1, h.2.1, h.2.2, claim_C5_theorem.2.2.2⟩

/-- Claim C10: when `destination_id` is `None` or `0` (Python-falsy), rule 5
adds no blocking reason and the validation outcome is identical to passing no
destination at all, even though `0` is not a key of `KNOWN_DESTINATIONS`; a
concrete otherwise-clean row with `destination_id = 0` is approved. -/
theorem claim_C10_theorem (pid : Nat) (content : String) (ctx : FaseR5.LlmContext)
    (d : Option Int) (h : d = none ∨ d = some 0) :
    FaseR5.newDestinationReasons d = [] ∧
    FaseR5.validate_content pid content ctx d = FaseR5.validate_content pid content ctx none ∧
    (0 : Int) ∉ FaseR5.KNOWN_DESTINATIONS.map Prod.fst ∧
    (FaseR5.validate_content 10 c10Content c10Ctx (some 0)).approved = true := by
  refine ⟨?_, ?_, by decide, by with_unfolding_all decide⟩ <;>
    rcases h with rfl | rfl <;> rfl

/-- Claim C10, witness: the falsy destination `some 0` at a concrete clean
row. -/
theorem claim_C10_witness :
    FaseR5.newDestinationReasons (some 0) = [] ∧
    FaseR5.validate_content 10 c10Content c10Ctx (some 0) =
      FaseR5.validate_content 10 c10Content c10Ctx none ∧
    (0 : Int) ∉ FaseR5.KNOWN_DESTINATIONS.map Prod.fst ∧
    (FaseR5.validate_content 10 c10Content c10Ctx (some 0)).approved = true :=
  claim_C10_theorem 10 c10Content c10Ctx (some 0) (Or.inr rfl)

/-- Claim C9, amended: word-count out-of-range generation is retried up to
`WORD_COUNT_RETRIES = 1` times (a bound of at least 1); the retry temperature
follows the increasing schedule `0.3 + 0.1·retry_count`, whose first step
equals the original call's `0.4` (so only later retries would exceed it); and
when the text stays out of range through all retries, the loop accepts the
out-of-range result with `word_count_ok = false` instead of failing the item:
the final state carries the last generated text after exactly
`WORD_COUNT_RETRIES` retries. -/
theorem claim_C9_theorem :
    1 ≤ WORD_COUNT_RETRIES ∧
    (∀ k : Nat, genTemperature (k + 1) = 3 / 10 + (k + 1 : ℚ) * (1 / 10)) ∧
    genTemperature 1 = genTemperature 0 ∧
    (∀ (gen : Nat → String) (tmin tmax : Nat),
       (∀ k, countWords (gen k) < tmin ∨ tmax < countWords (gen k)) →
       (∀ k, strStartsWith (gen k) "ERROR:" = false) →
       (generateWithRetries gen tmin tmax).word_retries = WORD_COUNT_RETRIES ∧
       (generateWithRetries gen tmin tmax).text = gen WORD_COUNT_RETRIES ∧
       wordCountOk tmin tmax (generateWithRetries gen tmin tmax).word_count = false) := by
  refine ⟨by decide, fun k => rfl, by with_unfolding_all decide, ?_⟩
  intro gen tmin tmax hout herr
  have hstep : generateWithRetries gen tmin tmax = ⟨gen 1, countWords (gen 1), 1⟩ := by
    rcases hout 0 with h0 | h0 <;>
      simp [generateWithRetries, retryLoop, WORD_COUNT_RETRIES, herr 1, h0]
  refine ⟨by rw [hstep]; rfl, by rw [hstep]; rfl, ?_⟩
  rw [hstep]
  rcases hout 1 with h | h <;> simp [wordCountOk, not_le.mpr h]

/-- Claim C9, witness: an oracle that always returns a 2-word text against the
rich-tier range [110, 140]. -/
theorem claim_C9_witness :
    (generateWithRetries c9Gen 110 140).word_retries = WORD_COUNT_RETRIES ∧
    (generateWithRetries c9Gen 110 140).text = c9Gen WORD_COUNT_RETRIES ∧
    wordCountOk 110 140 (generateWithRetries c9Gen 110 140).word_count = false :=
  claim_C9_theorem.2.2.2 c9Gen 110 140
    (fun _ => Or.inl (show countWords "too short" < 110 by decide))
    (fun _ => show strStartsWith "too short" "ERROR:" = false by decide)

/-! ### Lemmas about the promotion engine -/

/-- `prodUpdate` changes the value stored at key `k` (when present) and
nothing else. -/
theorem prodLookup_prodUpdate (k p : Nat) (v : String) :
    ∀ l : List (Nat × String),
      prodLookup (prodUpdate l k v) p =
        (prodLookup l p).map (fun w => if p = k then v else w) := by
  intro l
  induction l with
  | nil => rfl
  | cons kv t ih =>
      by_cases hk : kv.1 = k <;> by_cases hp : kv.1 = p <;>
        simp_all [prodUpdate, prodLookup]

/-- Updating a present key makes the lookup return the new value. -/
theorem prodLookup_prodUpdate_self (l : List (Nat × String)) (k : Nat) (v w : String)
    (h : prodLookup l k = some w) :
    prodLookup (prodUpdate l k v) k = some v := by
  rw [prodLookup_prodUpdate, h]; simp

/-- A key absent before an update is absent after it. -/
theorem prodLookup_prodUpdate_isNone (l : List (Nat × String)) (k p : Nat) (v : String)
    (h : prodLookup l p = none) :
    prodLookup (prodUpdate l k v) p = none := by
  rw [prodLookup_prodUpdate, h]; rfl

/-- Two successive updates of the same key collapse to the last one. -/
theorem prodUpdate_prodUpdate (l : List (Nat × String)) (k : Nat) (v w : String) :
    prodUpdate (prodUpdate l k v) k w = prodUpdate l k w := by
  induction l with
  | nil => rfl
  | cons kv t ih => by_cases hk : kv.1 = k <;> simp [prodUpdate, hk, ih] <;>
      simp_all [prodUpdate]

/-- A row whose POI is missing from production is skipped unchanged. -/
theorem promoteRow_of_lookup_none (st : Db) (x : StagingRow)
    (h : prodLookup st.production x.poi_id = none) : promoteRow st x = st := by
  simp [promoteRow, h]

/-- Folding `promoteRow` over rows whose POIs are all missing from production
does nothing. -/
theorem foldl_promoteRow_of_none (l : List StagingRow) (st : Db)
    (h : ∀ x ∈ l, prodLookup st.production x.poi_id = none) :
    l.foldl promoteRow st = st := by
  induction l with
  | nil => rfl
  | cons x xs ih =>
      rw [List.foldl_cons, promoteRow_of_lookup_none st x (h x (List.mem_cons_self x xs))]
      exact ih (fun y hy => h y (List.mem_cons_of_mem x hy))

/-- Invariant carried through the promotion fold: afterwards, every staging
row of the R4 batch that is still `approved` names a POI absent from the
production table (each selected row either flipped every same-id row to
`applied` or was skipped because its POI is missing — and the set of
production keys never changes). -/
theorem promote_fold_inv (pending : List StagingRow) :
    ∀ st : Db,
      (∀ r ∈ st.staging, approvedBatchRow r = true →
        prodLookup st.production r.poi_id = none ∨
        ∃ x ∈ pending, x.id = r.id ∧ x.poi_id = r.poi_id) →
      ∀ r ∈ (pending.foldl promoteRow st).staging, approvedBatchRow r = true →
        prodLookup (pending.foldl promoteRow st).production r.poi_id = none := by
  induction pending with
  | nil =>
      intro st h r hr hP
      rcases h r hr hP with h0 | ⟨x, hx, _⟩
      · exact h0
      · exact absurd hx (List.not_mem_nil x)
  | cons x xs ih =>
      intro st h
      rw [List.foldl_cons]
      apply ih
      intro r' hr' hP'
      rcases hl : prodLookup st.production x.poi_id with _ | old
      · rw [promoteRow_of_lookup_none st x hl] at hr' ⊢
        rcases h r' hr' hP' with h0 | ⟨y, hy, hyid, hypoi⟩
        · exact Or.inl h0
        · rcases List.mem_cons.mp hy with rfl | hy'
          · exact Or.inl (hypoi ▸ hl)
          · exact Or.inr ⟨y, hy', hyid, hypoi⟩
      · by_cases heq : old = x.detail_description_en
        · have hrw : promoteRow st x = { st with staging := setApplied st.staging x.id } := by
            simp [promoteRow, hl, heq]
          rw [hrw] at hr' ⊢
          simp only [setApplied, List.mem_map] at hr'
          obtain ⟨r, hrmem, hreq⟩ := hr'
          by_cases hid : r.id = x.id
          · rw [if_pos hid] at hreq
            rw [← hreq] at hP'
            simp [approvedBatchRow] at hP'
          · rw [if_neg hid] at hreq
            subst hreq
            rcases h r hrmem hP' with h0 | ⟨y, hy, hyid, hypoi⟩
            · exact Or.inl h0
            · rcases List.mem_cons.mp hy with rfl | hy'
              · exact absurd hyid.symm hid
              · exact Or.inr ⟨y, hy', hyid, hypoi⟩
        · have hrw : promoteRow st x =
              { production := prodUpdate st.production x.poi_id x.detail_description_en,
                staging := setApplied st.staging x.id,
                audit := st.audit ++ [auditEntryFor x old] } := by
            simp [promoteRow, hl, heq]
          rw [hrw] at hr' ⊢
          simp only [setApplied, List.mem_map] at hr'
          obtain ⟨r, hrmem, hreq⟩ := hr'
          by_cases hid : r.id = x.id
          · rw [if_pos hid] at hreq
            rw [← hreq] at hP'
            simp [approvedBatchRow] at hP'
          · rw [if_neg hid] at hreq
            subst hreq
            rcases h r hrmem hP' with h0 | ⟨y, hy, hyid, hypoi⟩
            · exact Or.inl (prodLookup_prodUpdate_isNone _ _ _ _ h0)
            · rcases List.mem_cons.mp hy with rfl | hy'
              · exact absurd hyid.symm hid
              · exact Or.inr ⟨y, hy', hyid, hypoi⟩

/-- After `promote_to_production`, no approved R4-batch staging row names a
POI present in production. -/
theorem promote_no_approved (db : Db) :
    ∀ r ∈ (promote_to_production db false).staging, approvedBatchRow r = true →
      prodLookup (promote_to_production db false).production r.poi_id = none := by
  by_cases hempty : (db.staging.filter approvedBatchRow).isEmpty
  · intro r hr hP
    rw [promote_to_production, if_pos hempty] at hr ⊢
    have hmem : r ∈ db.staging.filter approvedBatchRow := List.mem_filter.mpr ⟨hr, hP⟩
    rw [List.isEmpty_iff.mp hempty] at hmem
    exact absurd hmem (List.not_mem_nil r)
  · intro r hr hP
    rw [promote_to_production, if_neg (by simp [hempty]), if_neg (by simp)] at hr ⊢
    exact promote_fold_inv _ db
      (fun s hs hPs => Or.inr ⟨s, List.mem_filter.mpr ⟨hs, hPs⟩, rfl, rfl⟩) r hr hP

/-- Idempotence: a second execute-mode promotion pass is the identity. -/
theorem promote_idem (db : Db) :
    promote_to_production (promote_to_production db false) false =
      promote_to_production db false := by
  have hNP := promote_no_approved db
  by_cases hempty :
      ((promote_to_production db false).staging.filter approvedBatchRow).isEmpty
  · rw [promote_to_production, if_pos hempty]
  · rw [promote_to_production, if_neg (by simp [hempty]), if_neg (by simp)]
    exact foldl_promoteRow_of_none _ _ (fun x hx =>
      hNP x (List.mem_filter.mp hx).1 (List.mem_filter.mp hx).2)

/-- Promoting a single approved R4 row whose candidate equals the production
value: no production write, no audit entry, row flipped to `applied`
(Scenario D). -/
theorem promote_singleton_skip (prod : List (Nat × String)) (audit : List AuditEntry)
    (r : StagingRow) (h1 : approvedBatchRow r = true)
    (h2 : prodLookup prod r.poi_id = some r.detail_description_en) :
    promote_to_production ⟨prod, [r], audit⟩ false =
      ⟨prod, [{ r with status := "applied" }], audit⟩ := by
  simp [promote_to_production, List.filter, h1, promoteRow, h2, setApplied]

/-- Promoting a single approved R4 row whose candidate differs from the
production value: exactly one production write and one audit entry, row
flipped to `applied`. -/
theorem promote_singleton_write (prod : List (Nat × String)) (audit : List AuditEntry)
    (r : StagingRow) (old : String) (h1 : approvedBatchRow r = true)
    (h2 : prodLookup prod r.poi_id = some old)
    (h3 : old ≠ r.detail_description_en) :
    promote_to_production ⟨prod, [r], audit⟩ false =
      ⟨prodUpdate prod r.poi_id r.detail_description_en,
       [{ r with status := "applied" }],
       audit ++ [auditEntryFor r old]⟩ := by
  simp [promote_to_production, List.filter, h1, promoteRow, h2, h3, setApplied]

/-- Claim C7: promotion is idempotent — a second execute-mode pass over an
already-promoted database is the identity (every previously approved row is
`applied` or names a missing POI, so the second pass selects nothing it can
act on); a single approved row whose candidate equals production gets no
audit entry and no production write yet still transitions to `applied`; and a
single approved row whose candidate differs produces exactly one production
write and one audit entry. -/
theorem claim_C7_theorem :
    (∀ db : Db, promote_to_production (promote_to_production db false) false =
        promote_to_production db false) ∧
    (∀ (prod : List (Nat × String)) (audit : List AuditEntry) (r : StagingRow),
       approvedBatchRow r = true →
       prodLookup prod r.poi_id = some r.detail_description_en →
       promote_to_production ⟨prod, [r], audit⟩ false =
         ⟨prod, [{ r with status := "applied" }], audit⟩) ∧
    (∀ (prod : List (Nat × String)) (audit : List AuditEntry) (r : StagingRow) (old : String),
       approvedBatchRow r = true →
       prodLookup prod r.poi_id = some old →
       old ≠ r.detail_description_en →
       promote_to_production ⟨prod, [r], audit⟩ false =
         ⟨prodUpdate prod r.poi_id r.detail_description_en,
          [{ r with status := "applied" }],
          audit ++ [auditEntryFor r old]⟩) :=
  ⟨promote_idem, promote_singleton_skip, promote_singleton_write⟩

/-- Claim C7, witness: concrete databases for the three conjuncts. -/
theorem claim_C7_witness :
    promote_to_production (promote_to_production w7Db false) false =
      promote_to_production w7Db false ∧
    promote_to_production ⟨[(2, "Same text")], [w7RowSame], []⟩ false =
      ⟨[(2, "Same text")], [{ w7RowSame with status := "applied" }], []⟩ ∧
    promote_to_production w7Db false =
      ⟨prodUpdate [(1, "Old production text")] 1 "New candidate text",
       [{ w7Row with status := "applied" }],
       [] ++ [auditEntryFor w7Row "Old production text"]⟩ :=
  ⟨claim_C7_theorem.1 w7Db,
   claim_C7_theorem.2.1 [(2, "Same text")] [] w7RowSame (by decide) (by decide),
   claim_C7_theorem.2.2 [(1, "Old production text")] [] w7Row "Old production text"
     (by decide) (by decide) (by decide)⟩

/-- Claim C8, counterexample: for an item whose pre-promotion production
content is the empty string, rollback after promotion refuses (`if not
old_content` in the source): it returns `False`, leaves the promoted text in
production instead of restoring the empty pre-promotion value, appends no
audit entry, and leaves the staging row `applied` — so the claim is false at
this concrete input. -/
theorem claim_C8_counterexample :
    (rollback_poi (promote_to_production c8Db false) 3 false).2 = false ∧
    rollback_poi (promote_to_production c8Db false) 3 false =
      (promote_to_production c8Db false, false) ∧
    (rollback_poi (promote_to_production c8Db false) 3 false).1.production =
      [(3, "Regenerated text")] ∧
    (rollback_poi (promote_to_production c8Db false) 3 false).1.audit.length = 1 := by
  refine ⟨?_, ?_, ?_, ?_⟩ <;> decide

/-- Claim C8, amended: for any item whose pre-promotion production value is
non-empty and differs from the staged candidate, rolling back right after
promotion restores the production content bit-for-bit to the pre-promotion
value, appends exactly one new audit entry (with `change_source = rollback`,
recording the rolled-back text as the prior value), and reverts the `applied`
staging row to `rejected`.  (When the pre-promotion value is empty — or when
promotion skipped the write and no restore source exists — rollback refuses
and changes nothing, per the counterexample.) -/
theorem claim_C8_theorem (prod : List (Nat × String)) (audit : List AuditEntry)
    (r : StagingRow) (old : String)
    (h1 : approvedBatchRow r = true)
    (h2 : prodLookup prod r.poi_id = some old)
    (h3 : old ≠ "") (h4 : old ≠ r.detail_description_en) :
    rollback_poi (promote_to_production ⟨prod, [r], audit⟩ false) r.poi_id false =
      (⟨prodUpdate prod r.poi_id old,
        [{ r with status := "rejected", review_notes := "Rolled back via R5" }],
        (audit ++ [auditEntryFor r old]) ++
          [rollbackEntryFor r.poi_id r.detail_description_en old]⟩, true) ∧
    prodLookup (prodUpdate prod r.poi_id old) r.poi_id = some old := by
  rw [promote_singleton_write prod audit r old h1 h2 h4]
  have hcreated : r.created_date = R4_BATCH_DATE ∧ r.status = "approved" := by
    simpa [approvedBatchRow] using h1
  have hfind : ((audit ++ [auditEntryFor r old]).reverse.find?
      (fun e => e.poi_id == r.poi_id && e.field_name == "enriched_detail_description"))
      = some (auditEntryFor r old) := by
    have hrev : (audit ++ [auditEntryFor r old]).reverse =
        auditEntryFor r old :: audit.reverse := by simp
    rw [hrev]
    exact List.find?_cons_of_pos _ (by simp [auditEntryFor])
  have hcur : prodLookup (prodUpdate prod r.poi_id r.detail_description_en) r.poi_id =
      some r.detail_description_en :=
    prodLookup_prodUpdate_self prod r.poi_id r.detail_description_en old h2
  refine ⟨?_, prodLookup_prodUpdate_self prod r.poi_id old old h2⟩
  simp only [rollback_poi, rollbackSource, hfind]
  simp [auditEntryFor, h3, hcur, prodUpdate_prodUpdate, rollbackEntryFor, hcreated.1]

/-- Claim C8, witness: the amended rollback property at a concrete database
(non-empty pre-promotion content differing from the candidate). -/
theorem claim_C8_witness :
    rollback_poi
        (promote_to_production ⟨[(1, "Old production text")], [w7Row], []⟩ false) 1 false =
      (⟨prodUpdate [(1, "Old production text")] 1 "Old production text",
        [{ w7Row with status := "rejected", review_notes := "Rolled back via R5" }],
        ([] ++ [auditEntryFor w7Row "Old production text"]) ++
          [rollbackEntryFor 1 "New candidate text" "Old production text"]⟩, true) ∧
    prodLookup (prodUpdate [(1, "Old production text")] 1 "Old production text") 1 =
      some "Old production text" :=
  claim_C8_theorem [(1, "Old production text")] [] w7Row "Old production text"
    (by decide) (by decide) (by decide) (by decide)
